import Mathlib

/-!
Shallow embedding of the opencode-footprint CO2-tracker plugin
(`.opencode/plugins/co2-tracker.ts`) and verification of its
specification claims.

Numbers: the TypeScript source computes with JS `number`s.  Token counts
and costs are embedded as `Rat` (the claims under consideration do not
depend on binary floating-point rounding); the one place where the
non-finite JS values NaN/Infinity are observable (`parseFloat` and the
grid-intensity override) is embedded with an explicit `JsNum` type.
JS `Map` and `Set` (which preserve insertion order) are embedded as
association lists / duplicate-free lists with explicit operations.
-/

/-- The three model size tiers (`"small" | "medium" | "large"`). -/
inductive ModelSize where
  | small
  | medium
  | large
deriving DecidableEq

/-- The static `MODEL_SIZE` record: exact model-identifier → tier table. -/
def MODEL_SIZE : List (String × ModelSize) :=
  [("claude-haiku-4-5", .small),
   ("claude-sonnet-4-5", .medium),
   ("claude-sonnet-4", .medium),
   ("claude-opus-4", .large),
   ("gpt-4o-mini", .small),
   ("gpt-4.1-mini", .small),
   ("gpt-4.1-nano", .small),
   ("gpt-4o", .medium),
   ("gpt-4.1", .medium),
   ("o3-mini", .medium),
   ("o3", .large),
   ("o4-mini", .medium),
   ("gemini-2.0-flash", .small),
   ("gemini-2.5-flash", .small),
   ("gemini-2.5-pro", .medium)]

/-- Table `ENERGY_PER_TOKEN_KWH`: kWh per single token, by model class. -/
def ENERGY_PER_TOKEN_KWH : ModelSize → Rat
  | .small => 0.0000003
  | .medium => 0.000001
  | .large => 0.000003

/-- Constant `DEFAULT_GRID_INTENSITY`: default grid carbon intensity (gCO2/kWh). -/
def DEFAULT_GRID_INTENSITY : Rat := 400

/-- Key lookup in an association list (embeds JS `Map.get` /
record indexing; JS keys compare by value for strings). -/
def assocFind {α : Type} (k : String) : List (String × α) → Option α
  | [] => none
  | (k₁, v) :: rest => if k₁ = k then some v else assocFind k rest

/-- Does the character list start with `needle`? (helper for `includes`). -/
def charsStartWith : List Char → List Char → Bool
  | [], _ => true
  | _ :: _, [] => false
  | a :: as, b :: bs => a == b && charsStartWith as bs

/-- Does the character list contain `needle` as a contiguous run?
(helper for `includes`). -/
def charsContain (needle : List Char) : List Char → Bool
  | [] => charsStartWith needle []
  | hay@(_ :: rest) => charsStartWith needle hay || charsContain needle rest

/-- JS `hay.includes(sub)` on strings: contiguous-substring test. -/
def strIncludes (hay sub : String) : Bool :=
  charsContain sub.toList hay.toList

/-- JS `s.toLowerCase()` (character-wise lowercasing; the model
identifiers involved are ASCII, where this agrees with JS). -/
def strToLower (s : String) : String :=
  String.mk (s.data.map Char.toLower)

/-- Function `classifyModel`: exact table lookup, then lower-cased substring
heuristics (small markers first, then large markers with the
`"o3" && !"mini"` exclusion), defaulting to `medium`. -/
def classifyModel (modelID : String) : ModelSize :=
  match assocFind modelID MODEL_SIZE with
  | some s => s
  | none =>
    let id := strToLower modelID
    if strIncludes id "haiku" || strIncludes id "mini" ||
        strIncludes id "nano" || strIncludes id "flash" then
      .small
    else if strIncludes id "opus" || (strIncludes id "o3" && !strIncludes id "mini") then
      .large
    else
      .medium

/-- The `EcoGrade` record. -/
structure EcoGrade where
  grade : String
  label : String
  level : Nat
  tip : String
deriving DecidableEq

/-- One `ECO_THRESHOLDS` entry; `maxPerMsg = none` embeds the JS
`Infinity` bound of the last entry. -/
structure EcoThreshold where
  maxPerMsg : Option Rat
  grade : EcoGrade
deriving DecidableEq

/-- The `A+` grade record. -/
def gradeAplus : EcoGrade :=
  ⟨"A+", "Exemplary", 1, "Your session is incredibly efficient. Keep it up!"⟩

/-- The `A` grade record. -/
def gradeA : EcoGrade :=
  ⟨"A", "Excellent", 2, "Great efficiency! Small models and focused prompts pay off."⟩

/-- The `B` grade record. -/
def gradeB : EcoGrade :=
  ⟨"B", "Good", 3, "Solid session. Consider using smaller models for simpler tasks."⟩

/-- The `B-` grade record. -/
def gradeBminus : EcoGrade :=
  ⟨"B-", "Above Average", 4, "Not bad! Try batching questions to reduce message overhead."⟩

/-- The `C` grade record. -/
def gradeC : EcoGrade :=
  ⟨"C", "Moderate", 6, "Consider using a smaller model for routine tasks to cut emissions."⟩

/-- The `D` grade record. -/
def gradeD : EcoGrade :=
  ⟨"D", "High Impact", 8,
   "This session is carbon-heavy. Smaller models can reduce your footprint by up to 10x."⟩

/-- The grade record of the last (`Infinity`) threshold entry. -/
def gradeF : EcoGrade :=
  ⟨"F", "Very High Impact", 10,
   "Consider breaking work into smaller sessions and using efficient models."⟩

/-- The ordered `ECO_THRESHOLDS` ladder. -/
def ECO_THRESHOLDS : List EcoThreshold :=
  [⟨some 0.1, gradeAplus⟩,
   ⟨some 0.3, gradeA⟩,
   ⟨some 0.8, gradeB⟩,
   ⟨some 1.5, gradeBminus⟩,
   ⟨some 3.0, gradeC⟩,
   ⟨some 6.0, gradeD⟩,
   ⟨none, gradeF⟩]

/-- Comparison `perMsg <= t.maxPerMsg`, where the `Infinity` bound compares true. -/
def ratLeBound (p : Rat) : Option Rat → Bool
  | some b => decide (p ≤ b)
  | none => true

/-- The `for (const t of ECO_THRESHOLDS)` search loop of `getEcoGrade`. -/
def findGrade (perMsg : Rat) : List EcoThreshold → Option EcoGrade
  | [] => none
  | t :: rest => if ratLeBound perMsg t.maxPerMsg then some t.grade else findGrade perMsg rest

/-- Function `getEcoGrade(co2Grams, messages)`: first threshold whose bound is
≥ the per-message CO2; the fall-through return of the last entry
(unreachable) is embedded as `getD gradeF`. -/
def getEcoGrade (co2Grams : Rat) (messages : Nat) : EcoGrade :=
  let perMsg : Rat := if messages > 0 then co2Grams / (messages : Rat) else 0
  (findGrade perMsg ECO_THRESHOLDS).getD gradeF

/-- A JS `number` as observable through `parseFloat` and the grid-intensity
check: NaN, ±Infinity, or a finite value (embedded as an exact rational;
binary floating-point rounding is not modelled). -/
inductive JsNum where
  | nan
  | posInf
  | negInf
  | fin (q : Rat)
deriving DecidableEq

/-- Numeric value of a decimal digit character. -/
def digitVal (c : Char) : Nat := c.toNat - 48

/-- Split a character list into its longest leading run of decimal digits
and the remainder. -/
def takeDigits : List Char → List Char × List Char
  | [] => ([], [])
  | c :: rest =>
    if c.isDigit then
      let (ds, r) := takeDigits rest
      (c :: ds, r)
    else ([], c :: rest)

/-- Value of a digit run, most significant first. -/
def digitsToNat (acc : Nat) : List Char → Nat
  | [] => acc
  | c :: rest => digitsToNat (acc * 10 + digitVal c) rest

/-- Value `sign * mantissa * 10 ^ exponent` as an exact rational, built with
integer arithmetic only. -/
def ratOfParts (neg : Bool) (mant : Nat) (e : Int) : Rat :=
  let m : Int := if neg then -(mant : Int) else (mant : Int)
  if 0 ≤ e then mkRat (m * ((10 : Int) ^ e.toNat)) 1 else mkRat m ((10 : Nat) ^ (-e).toNat)

/-- JS `parseFloat`: skip leading whitespace, optional sign, then either
`Infinity` or the longest decimal literal (digits, optional fraction,
optional exponent); `NaN` when no digits are found.  Finite results are
exact rationals (no double rounding). -/
def parseFloat (s : String) : JsNum :=
  let cs := s.data.dropWhile (fun c => c.isWhitespace)
  let signAndRest : Bool × List Char :=
    match cs with
    | '-' :: rest => (true, rest)
    | '+' :: rest => (false, rest)
    | _ => (false, cs)
  let neg := signAndRest.1
  let cs := signAndRest.2
  if charsStartWith "Infinity".data cs then
    if neg then .negInf else .posInf
  else
    let (intDs, cs₁) := takeDigits cs
    let (fracDs, cs₂) :=
      match cs₁ with
      | '.' :: rest => takeDigits rest
      | _ => ([], cs₁)
    if intDs.isEmpty && fracDs.isEmpty then .nan
    else
      let mant := digitsToNat 0 (intDs ++ fracDs)
      let expAdj : Int :=
        match cs₂ with
        | e :: rest =>
          if e = 'e' || e = 'E' then
            let esignAndRest : Int × List Char :=
              match rest with
              | '-' :: r => (-1, r)
              | '+' :: r => (1, r)
              | _ => (1, rest)
            let eds := (takeDigits esignAndRest.2).1
            if eds.isEmpty then 0 else esignAndRest.1 * (digitsToNat 0 eds : Int)
          else 0
        | [] => 0
      .fin (ratOfParts neg mant (expAdj - (fracDs.length : Int)))

/-- JS truthiness of the environment variable: `undefined` and the empty
string are falsy. -/
def envTruthy : Option String → Bool
  | none => false
  | some s => !s.data.isEmpty

/-- Predicate `isNaN` observed on a `JsNum`. -/
def jsNumIsNaN : JsNum → Bool
  | .nan => true
  | _ => false

/-- The JS comparison `x > 0` on a `JsNum` (false for NaN). -/
def jsNumGtZero : JsNum → Bool
  | .fin q => decide (0 < q)
  | .posInf => true
  | _ => false

/-- Function `getGridIntensity()`, with the `process.env` read made explicit:
if the override is truthy and parses as a non-NaN number `> 0`, return
the parsed value, else the default 400. -/
def getGridIntensity (env : Option String) : JsNum :=
  if envTruthy env then
    let parsed := parseFloat (env.getD "")
    if !jsNumIsNaN parsed && jsNumGtZero parsed then parsed
    else .fin DEFAULT_GRID_INTENSITY
  else .fin DEFAULT_GRID_INTENSITY

/-- JS multiplication where one factor may be NaN/±Infinity (the grid
intensity); `±Infinity * 0 = NaN` as in IEEE. -/
def jsMul : JsNum → JsNum → JsNum
  | .nan, _ => .nan
  | _, .nan => .nan
  | .fin a, .fin b => .fin (a * b)
  | .posInf, .posInf => .posInf
  | .posInf, .negInf => .negInf
  | .negInf, .posInf => .negInf
  | .negInf, .negInf => .posInf
  | .posInf, .fin b => if 0 < b then .posInf else if b < 0 then .negInf else .nan
  | .fin a, .posInf => if 0 < a then .posInf else if a < 0 then .negInf else .nan
  | .negInf, .fin b => if 0 < b then .negInf else if b < 0 then .posInf else .nan
  | .fin a, .negInf => if 0 < a then .negInf else if a < 0 then .posInf else .nan

/-- The per-message snapshot record stored in `messageSnapshots`. -/
structure UsageSnapshot where
  input : Rat
  output : Rat
  reasoning : Rat
  cacheRead : Rat
  cacheWrite : Rat
  cost : Rat
deriving DecidableEq

/-- Record `msg.tokens.cache`. -/
structure TokenCache where
  read : Rat
  write : Rat
deriving DecidableEq

/-- Record `msg.tokens`. -/
structure TokenUsage where
  input : Rat
  output : Rat
  reasoning : Rat
  cache : TokenCache
deriving DecidableEq

/-- The fields of `event.properties.info` the handler reads. -/
structure MsgInfo where
  sessionID : String
  id : String
  role : String
  tokens : TokenUsage
  cost : Rat
  modelID : String
  providerID : String
deriving DecidableEq

/-- The per-session `SessionStats` record.  `models` and `providers`
embed JS `Set`s as insertion-ordered duplicate-free lists. -/
structure SessionStats where
  inputTokens : Rat
  outputTokens : Rat
  reasoningTokens : Rat
  cacheReadTokens : Rat
  cacheWriteTokens : Rat
  cost : Rat
  messages : Nat
  models : List String
  providers : List String
  firstSeen : Nat
deriving DecidableEq

/-- Function `newSessionStats()`; `Date.now()` is passed in as `now`. -/
def newSessionStats (now : Nat) : SessionStats :=
  ⟨0, 0, 0, 0, 0, 0, 0, [], [], now⟩

/-- The all-zero fallback snapshot used when no prior snapshot exists. -/
def zeroSnapshot : UsageSnapshot := ⟨0, 0, 0, 0, 0, 0⟩

/-- JS `Map.set`: replace in place if the key is bound, else append. -/
def assocSet {α : Type} (k : String) (v : α) : List (String × α) → List (String × α)
  | [] => [(k, v)]
  | (k₁, v₁) :: rest => if k₁ = k then (k, v) :: rest else (k₁, v₁) :: assocSet k v rest

/-- JS `Set.add`: append if not already present. -/
def setAdd (x : String) (l : List String) : List String :=
  if x ∈ l then l else l ++ [x]

/-- The snapshot key `` `${msg.sessionID}:${msg.id}` ``. -/
def mkKey (sessionID id : String) : String :=
  sessionID ++ ":" ++ id

/-- The snapshot stored for `msg` after handling it. -/
def snapshotOf (msg : MsgInfo) : UsageSnapshot :=
  ⟨msg.tokens.input, msg.tokens.output, msg.tokens.reasoning,
   msg.tokens.cache.read, msg.tokens.cache.write, msg.cost⟩

/-- The mutable plugin state: the `sessions` map and the
`messageSnapshots` map. -/
structure PluginState where
  sessions : List (String × SessionStats)
  messageSnapshots : List (String × UsageSnapshot)
deriving DecidableEq

/-- The state at plugin initialization: both maps empty. -/
def emptyPluginState : PluginState := ⟨[], []⟩

/-- The body of the `event` listener for a `message.updated` event:
ignore non-assistant roles, lazily create the session stats, accumulate
deltas against the prior snapshot (all-zero when absent), count new
messages, record model/provider, and store the current snapshot. -/
def handleUpdate (now : Nat) (msg : MsgInfo) (st : PluginState) : PluginState :=
  if msg.role ≠ "assistant" then st
  else
    let key := mkKey msg.sessionID msg.id
    let stats := (assocFind msg.sessionID st.sessions).getD (newSessionStats now)
    let prev := (assocFind key st.messageSnapshots).getD zeroSnapshot
    let isNew := (assocFind key st.messageSnapshots).isNone
    let stats₁ : SessionStats :=
      { inputTokens := stats.inputTokens + (msg.tokens.input - prev.input)
        outputTokens := stats.outputTokens + (msg.tokens.output - prev.output)
        reasoningTokens := stats.reasoningTokens + (msg.tokens.reasoning - prev.reasoning)
        cacheReadTokens := stats.cacheReadTokens + (msg.tokens.cache.read - prev.cacheRead)
        cacheWriteTokens := stats.cacheWriteTokens + (msg.tokens.cache.write - prev.cacheWrite)
        cost := stats.cost + (msg.cost - prev.cost)
        messages := stats.messages + (if isNew then 1 else 0)
        models := setAdd msg.modelID stats.models
        providers := setAdd msg.providerID stats.providers
        firstSeen := stats.firstSeen }
    { sessions := assocSet msg.sessionID stats₁ st.sessions
      messageSnapshots := assocSet key (snapshotOf msg) st.messageSnapshots }

/-- The event union seen by the listener: a `message.updated` event or
any other event kind (which the listener ignores). -/
inductive Event where
  | messageUpdated (info : MsgInfo)
  | other
deriving DecidableEq

/-- The `event` listener: dispatch on the event type. -/
def event (now : Nat) (e : Event) (st : PluginState) : PluginState :=
  match e with
  | .messageUpdated msg => handleUpdate now msg st
  | .other => st

/-- Process a list of update events in order. -/
def runUpdates (now : Nat) : List MsgInfo → PluginState → PluginState
  | [], st => st
  | m :: rest, st => runUpdates now rest (handleUpdate now m st)

/-- The `for (const modelID of stats.models)` dominant-class loop of
`computeCO2`: start at `small`, upgrade to `medium` when seen, break at
the first `large`. -/
def dominantLoop : List String → ModelSize → ModelSize
  | [], acc => acc
  | m :: rest, acc =>
    match classifyModel m with
    | .large => .large
    | .medium => dominantLoop rest .medium
    | .small => dominantLoop rest acc

/-- Result record of `computeCO2`. -/
structure CO2Result where
  totalTokens : Rat
  energyKwh : Rat
  co2Grams : JsNum
deriving DecidableEq

/-- Function `computeCO2(stats)`, with the `process.env` read made explicit. -/
def computeCO2 (env : Option String) (stats : SessionStats) : CO2Result :=
  let gridIntensity := getGridIntensity env
  let totalTokens := stats.inputTokens + stats.outputTokens + stats.reasoningTokens
  let dominantClass := dominantLoop stats.models .small
  let energyPerToken := ENERGY_PER_TOKEN_KWH dominantClass
  let energyKwh := totalTokens * energyPerToken
  ⟨totalTokens, energyKwh, jsMul (.fin energyKwh) gridIntensity⟩

/-! ### Association-list and set lemmas -/

theorem assocFind_assocSet_self {α : Type} (k : String) (v : α) (l : List (String × α)) :
    assocFind k (assocSet k v l) = some v := by
  induction l with
  | nil => simp [assocSet, assocFind]
  | cons p rest ih =>
    obtain ⟨k₁, v₁⟩ := p
    by_cases h : k₁ = k <;> simp [assocSet, assocFind, h, ih]

theorem assocFind_assocSet_ne {α : Type} {k k' : String} (h : k ≠ k') (v : α)
    (l : List (String × α)) : assocFind k' (assocSet k v l) = assocFind k' l := by
  induction l with
  | nil => simp [assocSet, assocFind, h]
  | cons p rest ih =>
    obtain ⟨k₁, v₁⟩ := p
    by_cases h₁ : k₁ = k
    · subst h₁
      simp [assocSet, assocFind, h]
    · simp [assocSet, assocFind, h₁, ih]

theorem assocSet_assocSet {α : Type} (k : String) (v₁ v₂ : α) (l : List (String × α)) :
    assocSet k v₂ (assocSet k v₁ l) = assocSet k v₂ l := by
  induction l with
  | nil => simp [assocSet]
  | cons p rest ih =>
    obtain ⟨k₁, e₁⟩ := p
    by_cases h : k₁ = k <;> simp [assocSet, h, ih]

theorem setAdd_setAdd (x : String) (l : List String) :
    setAdd x (setAdd x l) = setAdd x l := by
  by_cases h : x ∈ l <;> simp [setAdd, h]

theorem mem_setAdd_self (x : String) (l : List String) : x ∈ setAdd x l := by
  by_cases h : x ∈ l <;> simp [setAdd, h]

/-- The totals recorded for a session (all-zero `newSessionStats` when
the session has no entry; only its numeric fields, message count and
identifier sets are meaningful for an absent session). -/
def sessionTotals (st : PluginState) (sid : String) : SessionStats :=
  (assocFind sid st.sessions).getD (newSessionStats 0)

/-- Copy of `msg` with its cumulative input-token figure replaced by `v`. -/
def withInputTokens (m : MsgInfo) (v : Rat) : MsgInfo :=
  { m with tokens := { m.tokens with input := v } }

/-- A concrete assistant update event used by the witnesses. -/
def msgA : MsgInfo :=
  ⟨"s1", "m1", "assistant", ⟨100, 50, 0, ⟨10, 5⟩⟩, mkRat 1 100, "claude-opus-4", "anthropic"⟩

/-- A concrete non-assistant update event used by the witnesses. -/
def msgUser : MsgInfo :=
  ⟨"s1", "m2", "user", ⟨7, 0, 0, ⟨0, 0⟩⟩, 0, "claude-opus-4", "anthropic"⟩

/-- Unfolding of an assistant-role update: the session entry after the
event, in terms of the prior stats and the prior snapshot. -/
theorem handleUpdate_stats (now : Nat) (msg : MsgInfo) (st : PluginState)
    (h : msg.role = "assistant") :
    assocFind msg.sessionID (handleUpdate now msg st).sessions = some
      (let stats := (assocFind msg.sessionID st.sessions).getD (newSessionStats now)
       let prev := (assocFind (mkKey msg.sessionID msg.id) st.messageSnapshots).getD zeroSnapshot
       { inputTokens := stats.inputTokens + (msg.tokens.input - prev.input)
         outputTokens := stats.outputTokens + (msg.tokens.output - prev.output)
         reasoningTokens := stats.reasoningTokens + (msg.tokens.reasoning - prev.reasoning)
         cacheReadTokens := stats.cacheReadTokens + (msg.tokens.cache.read - prev.cacheRead)
         cacheWriteTokens := stats.cacheWriteTokens + (msg.tokens.cache.write - prev.cacheWrite)
         cost := stats.cost + (msg.cost - prev.cost)
         messages := stats.messages +
           (if (assocFind (mkKey msg.sessionID msg.id) st.messageSnapshots).isNone then 1 else 0)
         models := setAdd msg.modelID stats.models
         providers := setAdd msg.providerID stats.providers
         firstSeen := stats.firstSeen }) := by
  simp [handleUpdate, h, assocFind_assocSet_self]

/-- Unfolding of an assistant-role update: the snapshot table after the
event. -/
theorem handleUpdate_snapshots (now : Nat) (msg : MsgInfo) (st : PluginState)
    (h : msg.role = "assistant") :
    (handleUpdate now msg st).messageSnapshots =
      assocSet (mkKey msg.sessionID msg.id) (snapshotOf msg) st.messageSnapshots := by
  simp [handleUpdate, h]

/-- Field-wise description of the session totals after an assistant
update, in terms of the prior totals and the prior snapshot (the
`firstSeen` field is excluded: it is the one field whose value for an
absent session depends on the clock). -/
theorem sessionTotals_handleUpdate (now : Nat) (msg : MsgInfo) (st : PluginState)
    (h : msg.role = "assistant") :
    (sessionTotals (handleUpdate now msg st) msg.sessionID).inputTokens =
      (sessionTotals st msg.sessionID).inputTokens +
        (msg.tokens.input -
          ((assocFind (mkKey msg.sessionID msg.id) st.messageSnapshots).getD zeroSnapshot).input) ∧
    (sessionTotals (handleUpdate now msg st) msg.sessionID).outputTokens =
      (sessionTotals st msg.sessionID).outputTokens +
        (msg.tokens.output -
          ((assocFind (mkKey msg.sessionID msg.id) st.messageSnapshots).getD zeroSnapshot).output) ∧
    (sessionTotals (handleUpdate now msg st) msg.sessionID).reasoningTokens =
      (sessionTotals st msg.sessionID).reasoningTokens +
        (msg.tokens.reasoning -
          ((assocFind (mkKey msg.sessionID msg.id) st.messageSnapshots).getD
            zeroSnapshot).reasoning) ∧
    (sessionTotals (handleUpdate now msg st) msg.sessionID).cacheReadTokens =
      (sessionTotals st msg.sessionID).cacheReadTokens +
        (msg.tokens.cache.read -
          ((assocFind (mkKey msg.sessionID msg.id) st.messageSnapshots).getD
            zeroSnapshot).cacheRead) ∧
    (sessionTotals (handleUpdate now msg st) msg.sessionID).cacheWriteTokens =
      (sessionTotals st msg.sessionID).cacheWriteTokens +
        (msg.tokens.cache.write -
          ((assocFind (mkKey msg.sessionID msg.id) st.messageSnapshots).getD
            zeroSnapshot).cacheWrite) ∧
    (sessionTotals (handleUpdate now msg st) msg.sessionID).cost =
      (sessionTotals st msg.sessionID).cost +
        (msg.cost -
          ((assocFind (mkKey msg.sessionID msg.id) st.messageSnapshots).getD zeroSnapshot).cost) ∧
    (sessionTotals (handleUpdate now msg st) msg.sessionID).messages =
      (sessionTotals st msg.sessionID).messages +
        (if (assocFind (mkKey msg.sessionID msg.id) st.messageSnapshots).isNone then 1 else 0) ∧
    (sessionTotals (handleUpdate now msg st) msg.sessionID).models =
      setAdd msg.modelID (sessionTotals st msg.sessionID).models ∧
    (sessionTotals (handleUpdate now msg st) msg.sessionID).providers =
      setAdd msg.providerID (sessionTotals st msg.sessionID).providers := by
  have hs := handleUpdate_stats now msg st h
  simp only [sessionTotals, hs, Option.getD_some]
  cases hfind : assocFind msg.sessionID st.sessions <;>
    simp [hfind, newSessionStats]

/-- An update leaves every other session's entry untouched. -/
theorem handleUpdate_other_session (now : Nat) (msg : MsgInfo) (st : PluginState)
    (sid : String) (hne : msg.sessionID ≠ sid) :
    assocFind sid (handleUpdate now msg st).sessions = assocFind sid st.sessions := by
  by_cases h : msg.role = "assistant"
  · simp [handleUpdate, h, assocFind_assocSet_ne hne]
  · simp [handleUpdate, h]

/-! ### C1: idempotence of duplicate updates -/

/-- C1: applying the identical `message.updated` event twice in a row for
the same (session id, message id) leaves the whole plugin state — hence
every `SessionStats` field (the five token totals, cost, message count,
model set, provider set) and every stored snapshot — equal to what it is
after applying the event once: the second application computes zero
deltas against the snapshot stored by the first and does not
re-increment the message count. -/
theorem duplicate_update_idempotent (now₁ now₂ : Nat) (msg : MsgInfo) (st : PluginState) :
    event now₂ (.messageUpdated msg) (event now₁ (.messageUpdated msg) st) =
      event now₁ (.messageUpdated msg) st := by
  show handleUpdate now₂ msg (handleUpdate now₁ msg st) = handleUpdate now₁ msg st
  by_cases hrole : msg.role = "assistant"
  · simp only [handleUpdate, hrole, ne_eq, not_true_eq_false, if_false]
    simp [assocFind_assocSet_self, assocSet_assocSet, setAdd_setAdd, snapshotOf]
  · simp [handleUpdate, hrole]

/-! ### C10: non-assistant events are no-ops -/

/-- C10: for every incoming `message.updated` event whose role is not
`"assistant"`, the event sink performs no state change at all: the whole
plugin state — every `SessionStats` and every stored message snapshot —
is exactly the same after handling the event as before it. -/
theorem non_assistant_update_is_noop (now : Nat) (msg : MsgInfo) (st : PluginState)
    (h : msg.role ≠ "assistant") :
    event now (.messageUpdated msg) st = st := by
  simp [event, handleUpdate, h]

/-- Witness for C10 at a concrete `"user"`-role event. -/
theorem non_assistant_update_is_noop_witness :
    msgUser.role ≠ "assistant" ∧
      event 0 (.messageUpdated msgUser) emptyPluginState = emptyPluginState :=
  ⟨by decide, non_assistant_update_is_noop 0 msgUser emptyPluginState (by decide)⟩

/-! ### C2: cumulative snapshots are accumulated as deltas -/

/-- C2: each of the five token fields and the cost field is accumulated
as `delta = current.field - prior.field` against the stored prior
snapshot (all-zero when no prior exists); consequently a message whose
successive update events carry cumulative input-token values
`[0, 50, 120]` makes the session input-token total increase by exactly
50 on the second update and exactly 70 on the third, never by the full
cumulative value. -/
theorem delta_accumulation :
    (∀ (now : Nat) (msg : MsgInfo) (st : PluginState), msg.role = "assistant" →
      (let prev := (assocFind (mkKey msg.sessionID msg.id) st.messageSnapshots).getD zeroSnapshot
       let before := sessionTotals st msg.sessionID
       let after := sessionTotals (event now (.messageUpdated msg) st) msg.sessionID
       after.inputTokens = before.inputTokens + (msg.tokens.input - prev.input) ∧
       after.outputTokens = before.outputTokens + (msg.tokens.output - prev.output) ∧
       after.reasoningTokens = before.reasoningTokens + (msg.tokens.reasoning - prev.reasoning) ∧
       after.cacheReadTokens = before.cacheReadTokens + (msg.tokens.cache.read - prev.cacheRead) ∧
       after.cacheWriteTokens = before.cacheWriteTokens + (msg.tokens.cache.write - prev.cacheWrite) ∧
       after.cost = before.cost + (msg.cost - prev.cost))) ∧
    (∀ (now : Nat) (base : MsgInfo) (st : PluginState), base.role = "assistant" →
      (sessionTotals (runUpdates now [withInputTokens base 0, withInputTokens base 50] st)
            base.sessionID).inputTokens =
        (sessionTotals (runUpdates now [withInputTokens base 0] st) base.sessionID).inputTokens
          + 50 ∧
      (sessionTotals
            (runUpdates now
              [withInputTokens base 0, withInputTokens base 50, withInputTokens base 120] st)
            base.sessionID).inputTokens =
        (sessionTotals (runUpdates now [withInputTokens base 0, withInputTokens base 50] st)
            base.sessionID).inputTokens + 70) := by
  constructor
  · intro now msg st h
    have k := sessionTotals_handleUpdate now msg st h
    simp only [event]
    exact ⟨k.1, k.2.1, k.2.2.1, k.2.2.2.1, k.2.2.2.2.1, k.2.2.2.2.2.1⟩
  · intro now base st h
    have h0 : (withInputTokens base 0).role = "assistant" := h
    have h1 : (withInputTokens base 50).role = "assistant" := h
    have h2 : (withInputTokens base 120).role = "assistant" := h
    have hsid : ∀ v : Rat, (withInputTokens base v).sessionID = base.sessionID := fun _ => rfl
    have hid : ∀ v : Rat, (withInputTokens base v).id = base.id := fun _ => rfl
    simp only [runUpdates]
    have hsnap0 := handleUpdate_snapshots now (withInputTokens base 0) st h0
    have hsnap1 := handleUpdate_snapshots now (withInputTokens base 50)
      (handleUpdate now (withInputTokens base 0) st) h1
    constructor
    · have k := (sessionTotals_handleUpdate now (withInputTokens base 50)
        (handleUpdate now (withInputTokens base 0) st) h1).1
      rw [hsid, hid, hsnap0, hsid, hid, assocFind_assocSet_self] at k
      simpa [withInputTokens, snapshotOf] using k
    · have k := (sessionTotals_handleUpdate now (withInputTokens base 120)
        (handleUpdate now (withInputTokens base 50)
          (handleUpdate now (withInputTokens base 0) st)) h2).1
      rw [hsid, hid, hsnap1, hsid, hid, assocFind_assocSet_self] at k
      simp only [withInputTokens, snapshotOf] at k ⊢
      rw [k]
      norm_num

/-- Witness for C2 at the concrete event `msgA` from the empty state. -/
theorem delta_accumulation_witness :
    msgA.role = "assistant" ∧
    ((sessionTotals (runUpdates 0 [withInputTokens msgA 0, withInputTokens msgA 50]
          emptyPluginState) msgA.sessionID).inputTokens =
      (sessionTotals (runUpdates 0 [withInputTokens msgA 0] emptyPluginState)
          msgA.sessionID).inputTokens + 50 ∧
     (sessionTotals (runUpdates 0
          [withInputTokens msgA 0, withInputTokens msgA 50, withInputTokens msgA 120]
          emptyPluginState) msgA.sessionID).inputTokens =
      (sessionTotals (runUpdates 0 [withInputTokens msgA 0, withInputTokens msgA 50]
          emptyPluginState) msgA.sessionID).inputTokens + 70) :=
  ⟨rfl, delta_accumulation.2 0 msgA emptyPluginState rfl⟩

/-! ### C9: non-monotonic snapshots drive totals down, unclamped -/

/-- C9: when a later update for a message carries a cumulative field
value strictly smaller than the stored prior snapshot's value, the
computed delta is negative and is added unchanged, so the corresponding
session running total strictly decreases (stated for each of the six
accumulated fields): the accumulator neither rejects nor clamps such
updates. -/
theorem negative_delta_decreases_totals (now : Nat) (msg : MsgInfo) (st : PluginState)
    (prev : UsageSnapshot) (hrole : msg.role = "assistant")
    (hprev : assocFind (mkKey msg.sessionID msg.id) st.messageSnapshots = some prev) :
    (msg.tokens.input < prev.input →
      (sessionTotals (event now (.messageUpdated msg) st) msg.sessionID).inputTokens <
        (sessionTotals st msg.sessionID).inputTokens) ∧
    (msg.tokens.output < prev.output →
      (sessionTotals (event now (.messageUpdated msg) st) msg.sessionID).outputTokens <
        (sessionTotals st msg.sessionID).outputTokens) ∧
    (msg.tokens.reasoning < prev.reasoning →
      (sessionTotals (event now (.messageUpdated msg) st) msg.sessionID).reasoningTokens <
        (sessionTotals st msg.sessionID).reasoningTokens) ∧
    (msg.tokens.cache.read < prev.cacheRead →
      (sessionTotals (event now (.messageUpdated msg) st) msg.sessionID).cacheReadTokens <
        (sessionTotals st msg.sessionID).cacheReadTokens) ∧
    (msg.tokens.cache.write < prev.cacheWrite →
      (sessionTotals (event now (.messageUpdated msg) st) msg.sessionID).cacheWriteTokens <
        (sessionTotals st msg.sessionID).cacheWriteTokens) ∧
    (msg.cost < prev.cost →
      (sessionTotals (event now (.messageUpdated msg) st) msg.sessionID).cost <
        (sessionTotals st msg.sessionID).cost) := by
  have k := sessionTotals_handleUpdate now msg st hrole
  rw [hprev] at k
  simp only [Option.getD_some] at k
  obtain ⟨k1, k2, k3, k4, k5, k6, -⟩ := k
  simp only [event]
  exact ⟨fun hlt => by rw [k1]; linarith, fun hlt => by rw [k2]; linarith,
    fun hlt => by rw [k3]; linarith, fun hlt => by rw [k4]; linarith,
    fun hlt => by rw [k5]; linarith, fun hlt => by rw [k6]; linarith⟩

/-- Witness for C9: replay `msgA` with a smaller cumulative input count
(50 after 100) and watch the input total strictly decrease. -/
theorem negative_delta_decreases_totals_witness :
    (withInputTokens msgA 50).role = "assistant" ∧
    assocFind (mkKey (withInputTokens msgA 50).sessionID (withInputTokens msgA 50).id)
        (runUpdates 0 [msgA] emptyPluginState).messageSnapshots = some (snapshotOf msgA) ∧
    (withInputTokens msgA 50).tokens.input < (snapshotOf msgA).input ∧
    (sessionTotals
        (event 0 (.messageUpdated (withInputTokens msgA 50))
          (runUpdates 0 [msgA] emptyPluginState))
        (withInputTokens msgA 50).sessionID).inputTokens <
      (sessionTotals (runUpdates 0 [msgA] emptyPluginState)
        (withInputTokens msgA 50).sessionID).inputTokens :=
  ⟨by decide, by decide, by decide,
    (negative_delta_decreases_totals 0 (withInputTokens msgA 50)
      (runUpdates 0 [msgA] emptyPluginState) (snapshotOf msgA) (by decide) (by decide)).1
      (by decide)⟩

/-! ### C3: the message counter counts distinct message ids -/

/-- Does a snapshot entry exist under key `k`? -/
def snapExists (st : PluginState) (k : String) : Bool :=
  (assocFind k st.messageSnapshots).isSome

/-- Number of elements of `l` that are fresh: not hit by `f` and not
seen earlier in `l`.  This mirrors how the accumulator counts "new"
messages. -/
def countFresh (f : String → Bool) : List String → Nat
  | [] => 0
  | i :: rest => (if f i then 0 else 1) + countFresh (fun j => f j || (j == i)) rest

theorem countFresh_congr (l : List String) : ∀ f g : String → Bool,
    (∀ j, f j = g j) → countFresh f l = countFresh g l := by
  induction l with
  | nil => intro f g _; rfl
  | cons i rest ih =>
    intro f g h
    simp only [countFresh, h i]
    congr 1
    exact ih _ _ fun j => by rw [h j]

/-- Within one session, the snapshot key is injective in the message id
(the session id contributes a fixed prefix). -/
theorem mkKey_inj_id {sid a b : String} (h : mkKey sid a = mkKey sid b) : a = b := by
  have hd : (sid ++ ":").data ++ a.data = (sid ++ ":").data ++ b.data := by
    have := congrArg String.data h
    simpa [mkKey, String.data_append] using this
  exact String.ext (List.append_cancel_left hd)

theorem snapExists_handleUpdate (now : Nat) (msg : MsgInfo) (st : PluginState) (k : String)
    (h : msg.role = "assistant") :
    snapExists (handleUpdate now msg st) k =
      (snapExists st k || (mkKey msg.sessionID msg.id == k)) := by
  rw [snapExists, handleUpdate_snapshots now msg st h]
  by_cases hk : mkKey msg.sessionID msg.id = k
  · subst hk
    simp [assocFind_assocSet_self]
  · rw [assocFind_assocSet_ne hk]
    simp [snapExists, hk]

/-- Evolution of the message counter over a run of assistant updates for
one session: it grows by the number of fresh message ids. -/
theorem runUpdates_messages (now : Nat) (sid : String) :
    ∀ (es : List MsgInfo) (st : PluginState),
    (∀ m ∈ es, m.role = "assistant" ∧ m.sessionID = sid) →
    (sessionTotals (runUpdates now es st) sid).messages =
      (sessionTotals st sid).messages +
        countFresh (fun i => snapExists st (mkKey sid i)) (es.map (fun m => m.id)) := by
  intro es
  induction es with
  | nil => intro st _; simp [runUpdates, countFresh]
  | cons m rest ih =>
    intro st h
    obtain ⟨hrole, hsid⟩ := h m (by simp)
    have hrest : ∀ m₁ ∈ rest, m₁.role = "assistant" ∧ m₁.sessionID = sid := by
      intro m₁ hm₁; exact h m₁ (by simp [hm₁])
    have hmsg : (sessionTotals (handleUpdate now m st) sid).messages =
        (sessionTotals st sid).messages +
          (if snapExists st (mkKey sid m.id) then 0 else 1) := by
      have k := (sessionTotals_handleUpdate now m st hrole).2.2.2.2.2.2.1
      rw [hsid] at k
      rw [k, snapExists]
      cases hf : assocFind (mkKey sid m.id) st.messageSnapshots <;> simp [hf]
    have hfun : ∀ i, snapExists (handleUpdate now m st) (mkKey sid i) =
        ((fun i => snapExists st (mkKey sid i)) i || (i == m.id)) := by
      intro i
      rw [snapExists_handleUpdate now m st _ hrole, hsid]
      by_cases hi : i = m.id
      · subst hi; simp
      · have hne : mkKey sid m.id ≠ mkKey sid i := fun hk => hi (mkKey_inj_id hk).symm
        have hb₁ : (mkKey sid m.id == mkKey sid i) = false := beq_eq_false_iff_ne.2 hne
        have hb₂ : (i == m.id) = false := beq_eq_false_iff_ne.2 hi
        rw [hb₁, hb₂]
    calc (sessionTotals (runUpdates now (m :: rest) st) sid).messages
        = (sessionTotals (handleUpdate now m st) sid).messages +
            countFresh (fun i => snapExists (handleUpdate now m st) (mkKey sid i))
              (rest.map (fun m => m.id)) := by
          simpa [runUpdates] using ih (handleUpdate now m st) hrest
      _ = (sessionTotals st sid).messages +
            ((if snapExists st (mkKey sid m.id) then 0 else 1) +
              countFresh (fun j => snapExists st (mkKey sid j) || (j == m.id))
                (rest.map (fun m => m.id))) := by
          rw [hmsg, countFresh_congr _ _ _ hfun, Nat.add_assoc]
      _ = (sessionTotals st sid).messages +
            countFresh (fun i => snapExists st (mkKey sid i)) ((m :: rest).map (fun m => m.id)) := by
          simp [countFresh]

theorem card_insert_eq_card_erase_add_one (T : Finset String) (i : String) :
    (insert i T).card = (T.erase i).card + 1 := by
  by_cases h : i ∈ T
  · rw [Finset.insert_eq_self.2 h]
    exact (Finset.card_erase_add_one h).symm
  · rw [Finset.erase_eq_of_not_mem h, Finset.card_insert_of_not_mem h]

/-- Function `countFresh` counts the distinct elements not already hit by `f`. -/
theorem countFresh_card (l : List String) : ∀ f : String → Bool,
    countFresh f l = (l.toFinset.filter (fun i => f i = false)).card := by
  induction l with
  | nil => intro f; simp [countFresh]
  | cons i rest ih =>
    intro f
    have hg : (rest.toFinset.filter (fun j => (f j || (j == i)) = false)) =
        (rest.toFinset.filter (fun j => f j = false)).erase i := by
      rw [Finset.erase_eq, Finset.sdiff_eq_filter, Finset.filter_filter]
      apply Finset.filter_congr
      intro j _
      by_cases hj : j = i <;> simp [hj]
    rw [countFresh, ih, hg, List.toFinset_cons, Finset.filter_insert]
    by_cases hf : f i = true
    · have hnot : i ∉ rest.toFinset.filter (fun j => f j = false) := by simp [hf]
      simp only [hf]
      rw [Finset.erase_eq_of_not_mem hnot]
      simp
    · simp only [Bool.not_eq_true] at hf
      rw [if_pos hf, hf, card_insert_eq_card_erase_add_one]
      simp [Nat.add_comm]

/-- C3: for every session in which N distinct message ids each receive
k ≥ 1 assistant update events (starting from plugin initialization), the
session's `messages` counter equals exactly N — the number of distinct
message ids — regardless of how many updates each id received: the
counter is incremented only on the event that first creates a message's
snapshot entry. -/
theorem message_count_exactness (now : Nat) (sid : String) (es : List MsgInfo)
    (h : ∀ m ∈ es, m.role = "assistant" ∧ m.sessionID = sid) :
    (sessionTotals (runUpdates now es emptyPluginState) sid).messages =
      ((es.map (fun m => m.id)).toFinset).card := by
  rw [runUpdates_messages now sid es emptyPluginState h]
  have hempty : ∀ i, snapExists emptyPluginState (mkKey sid i) = false := by
    intro i; rfl
  rw [countFresh_congr _ _ (fun _ => false) (fun i => hempty i), countFresh_card]
  simp [sessionTotals, emptyPluginState, assocFind, newSessionStats]

/-- A second concrete assistant message in the same session. -/
def msgB : MsgInfo := { msgA with id := "m2" }

/-- Witness for C3: two distinct ids over three updates count as 2. -/
theorem message_count_exactness_witness :
    (∀ m ∈ [msgA, withInputTokens msgA 50, msgB],
        m.role = "assistant" ∧ m.sessionID = "s1") ∧
    (sessionTotals (runUpdates 0 [msgA, withInputTokens msgA 50, msgB] emptyPluginState)
          "s1").messages =
      (([msgA, withInputTokens msgA 50, msgB].map (fun m => m.id)).toFinset).card :=
  ⟨by decide, message_count_exactness 0 "s1" [msgA, withInputTokens msgA 50, msgB] (by decide)⟩

/-! ### C4: snapshot keys and the ':' separator -/

theorem append_cons_eq_of_not_mem {α : Type} (c : α) :
    ∀ l₁ l₂ r₁ r₂ : List α, c ∉ l₁ → c ∉ l₂ →
      l₁ ++ c :: r₁ = l₂ ++ c :: r₂ → l₁ = l₂ ∧ r₁ = r₂ := by
  intro l₁
  induction l₁ with
  | nil =>
    intro l₂ r₁ r₂ _ h₂ h
    cases l₂ with
    | nil => simpa using h
    | cons b bs =>
      simp only [List.nil_append, List.cons_append, List.cons.injEq] at h
      exact absurd (h.1 ▸ List.mem_cons_self b bs) h₂
  | cons a as ih =>
    intro l₂ r₁ r₂ h₁ h₂ h
    cases l₂ with
    | nil =>
      simp only [List.cons_append, List.nil_append, List.cons.injEq] at h
      exact absurd (h.1 ▸ List.mem_cons_self a as) (h.1 ▸ h₁)
    | cons b bs =>
      simp only [List.cons_append, List.cons.injEq] at h
      obtain ⟨rfl, h⟩ := h
      obtain ⟨rfl, rfl⟩ := ih bs r₁ r₂ (fun hc => h₁ (List.mem_cons_of_mem _ hc))
        (fun hc => h₂ (List.mem_cons_of_mem _ hc)) h
      exact ⟨rfl, rfl⟩

/-- C4 counterexample: the snapshot key is NOT injective on
(session id, message id) pairs once identifiers may contain the ':'
separator — the two distinct pairs ("a:b","c") and ("a","b:c") share the
key "a:b:c", and after an update for the first pair, the slot the second
pair reads already holds the first pair's snapshot. -/
theorem mkKey_collision_counterexample :
    mkKey "a:b" "c" = mkKey "a" "b:c" ∧
    (("a:b", "c") : String × String) ≠ ("a", "b:c") ∧
    assocFind (mkKey "a" "b:c")
        (handleUpdate 0 { msgA with sessionID := "a:b", id := "c" }
          emptyPluginState).messageSnapshots =
      some (snapshotOf { msgA with sessionID := "a:b", id := "c" }) :=
  ⟨by decide, by decide, by decide⟩

/-- C4 (amended): distinct (session id, message id) pairs get distinct
snapshot slots provided the session identifiers do not contain the ':'
separator character (the key is then injective); with ':' allowed in
identifiers, distinct pairs can collide. -/
theorem mkKey_injective_of_no_colon (s₁ m₁ s₂ m₂ : String)
    (h₁ : ':' ∉ s₁.data) (h₂ : ':' ∉ s₂.data)
    (heq : mkKey s₁ m₁ = mkKey s₂ m₂) : s₁ = s₂ ∧ m₁ = m₂ := by
  have hd : s₁.data ++ ':' :: m₁.data = s₂.data ++ ':' :: m₂.data := by
    have h := congrArg String.data heq
    simpa [mkKey, String.data_append] using h
  obtain ⟨hs, hm⟩ := append_cons_eq_of_not_mem ':' _ _ _ _ h₁ h₂ hd
  exact ⟨String.ext hs, String.ext hm⟩

/-- Witness for the amended C4 at concrete colon-free identifiers. -/
theorem mkKey_injective_of_no_colon_witness :
    (':' ∉ ("s1" : String).data) ∧ mkKey "s1" "m1" = mkKey "s1" "m1" ∧
      (("s1" : String) = "s1" ∧ ("m1" : String) = "m1") :=
  ⟨by decide, rfl, mkKey_injective_of_no_colon "s1" "m1" "s1" "m1" (by decide) (by decide) rfl⟩

/-! ### C5: grid-intensity override parsing -/

/-- Evaluation of `parseFloat` on a string with no characters is NaN. -/
theorem parseFloat_of_data_nil {s : String} (h : s.data = []) : parseFloat s = .nan := by
  simp [parseFloat, h, takeDigits, charsStartWith]

/-- C5 counterexample: the override check is `!isNaN(parsed) && parsed > 0`
with no finiteness test, so the non-finite override `"Infinity"` is
returned as the grid intensity instead of falling back to the default
400 the claim prescribes for non-finite values. -/
theorem grid_intensity_infinity_counterexample :
    getGridIntensity (some "Infinity") = .posInf ∧ JsNum.posInf ≠ .fin 400 :=
  ⟨by decide, by decide⟩

/-- C5 (amended): the grid-intensity function returns the parsed value
of the override string exactly when that string parses as a positive
number — finite or the non-finite `Infinity`, which is returned as-is —
and returns the default 400 for every other string (absent, empty,
non-numeric, non-positive, or negative-infinite); consequently setting
the override to "50" makes co2Grams = energyKwh * 50 exactly, and
setting it to "-5", "abc", or leaving it unset makes
co2Grams = energyKwh * 400. -/
theorem grid_intensity_override :
    (∀ (s : String) (q : Rat), parseFloat s = .fin q → 0 < q →
        getGridIntensity (some s) = .fin q) ∧
    (getGridIntensity (some "Infinity") = .posInf) ∧
    (∀ s : String, parseFloat s = .nan → getGridIntensity (some s) = .fin 400) ∧
    (∀ (s : String) (q : Rat), parseFloat s = .fin q → q ≤ 0 →
        getGridIntensity (some s) = .fin 400) ∧
    (∀ s : String, parseFloat s = .negInf → getGridIntensity (some s) = .fin 400) ∧
    (getGridIntensity none = .fin 400) ∧
    (∀ stats : SessionStats, (computeCO2 (some "50") stats).co2Grams =
        .fin ((computeCO2 (some "50") stats).energyKwh * 50)) ∧
    (∀ stats : SessionStats, (computeCO2 (some "-5") stats).co2Grams =
        .fin ((computeCO2 (some "-5") stats).energyKwh * 400)) ∧
    (∀ stats : SessionStats, (computeCO2 (some "abc") stats).co2Grams =
        .fin ((computeCO2 (some "abc") stats).energyKwh * 400)) ∧
    (∀ stats : SessionStats, (computeCO2 none stats).co2Grams =
        .fin ((computeCO2 none stats).energyKwh * 400)) := by
  have hgrid50 : getGridIntensity (some "50") = .fin 50 := by decide
  have hgridm5 : getGridIntensity (some "-5") = .fin 400 := by decide
  have hgridabc : getGridIntensity (some "abc") = .fin 400 := by decide
  have hgridnone : getGridIntensity none = .fin 400 := by decide
  refine ⟨?_, by decide, ?_, ?_, ?_, hgridnone, ?_, ?_, ?_, ?_⟩
  · intro s q h hq
    by_cases he : s.data = []
    · rw [parseFloat_of_data_nil he] at h
      exact absurd h (by simp)
    · simp [getGridIntensity, envTruthy, he, h, jsNumIsNaN, jsNumGtZero, hq]
  · intro s h
    by_cases he : s.data = []
    · simp [getGridIntensity, envTruthy, he, DEFAULT_GRID_INTENSITY]
    · simp [getGridIntensity, envTruthy, he, h, jsNumIsNaN, DEFAULT_GRID_INTENSITY]
  · intro s q h hq
    by_cases he : s.data = []
    · simp [getGridIntensity, envTruthy, he, DEFAULT_GRID_INTENSITY]
    · simp [getGridIntensity, envTruthy, he, h, jsNumIsNaN, jsNumGtZero, not_lt.2 hq,
        DEFAULT_GRID_INTENSITY]
  · intro s h
    by_cases he : s.data = []
    · simp [getGridIntensity, envTruthy, he, DEFAULT_GRID_INTENSITY]
    · simp [getGridIntensity, envTruthy, he, h, jsNumIsNaN, jsNumGtZero,
        DEFAULT_GRID_INTENSITY]
  · intro stats; simp [computeCO2, hgrid50, jsMul]
  · intro stats; simp [computeCO2, hgridm5, jsMul]
  · intro stats; simp [computeCO2, hgridabc, jsMul]
  · intro stats; simp [computeCO2, hgridnone, jsMul]

/-- Witness for the amended C5 at the concrete override "50". -/
theorem grid_intensity_override_witness :
    parseFloat "50" = .fin 50 ∧ (0 : Rat) < 50 ∧ getGridIntensity (some "50") = .fin 50 :=
  ⟨by decide, by decide, grid_intensity_override.1 "50" 50 (by decide) (by decide)⟩

/-! ### C6: grade ladder totality and monotonicity -/

/-- The per-message CO2 figure used by `getEcoGrade`. -/
def perMessage (co2Grams : Rat) (messages : Nat) : Rat :=
  if messages > 0 then co2Grams / (messages : Rat) else 0

theorem getEcoGrade_eq (c : Rat) (m : Nat) :
    getEcoGrade c m = (findGrade (perMessage c m) ECO_THRESHOLDS).getD gradeF := rfl

/-- Closed form of the ladder walk: the severity level as a nested
comparison against the seven bounds. -/
theorem level_findGrade (p : Rat) :
    ((findGrade p ECO_THRESHOLDS).getD gradeF).level =
      if p ≤ 0.1 then 1 else if p ≤ 0.3 then 2 else if p ≤ 0.8 then 3 else
      if p ≤ 1.5 then 4 else if p ≤ 3.0 then 6 else if p ≤ 6.0 then 8 else 10 := by
  simp only [findGrade, ECO_THRESHOLDS, ratLeBound, decide_eq_true_eq]
  split_ifs <;>
    simp [gradeAplus, gradeA, gradeB, gradeBminus, gradeC, gradeD, gradeF]

set_option maxHeartbeats 1000000 in
/-- The severity level is monotone in the per-message figure. -/
theorem level_mono {p q : Rat} (hpq : p ≤ q) :
    ((findGrade p ECO_THRESHOLDS).getD gradeF).level ≤
      ((findGrade q ECO_THRESHOLDS).getD gradeF).level := by
  rw [level_findGrade, level_findGrade]
  split_ifs
  all_goals try norm_num
  all_goals exfalso
  all_goals linarith

/-- C6: the grading function is total and monotone — for every
non-negative `co2Grams` and `messageCount` it returns exactly the grade
of the first entry of the ordered ladder whose bound is ≥ `perMessage`
(the unbounded last entry always matches, so some entry is returned),
and a strictly larger `perMessage` never yields a strictly better
(lower-severity) grade than a smaller one. -/
theorem eco_grade_total_and_monotone :
    (∀ (co2Grams : Rat) (messages : Nat), 0 ≤ co2Grams →
      ∃ pre t post, ECO_THRESHOLDS = pre ++ t :: post ∧
        getEcoGrade co2Grams messages = t.grade ∧
        ratLeBound (perMessage co2Grams messages) t.maxPerMsg = true ∧
        ∀ t₁ ∈ pre, ratLeBound (perMessage co2Grams messages) t₁.maxPerMsg = false) ∧
    (∀ (c₁ c₂ : Rat) (m₁ m₂ : Nat), 0 ≤ c₁ → 0 ≤ c₂ →
      perMessage c₁ m₁ ≤ perMessage c₂ m₂ →
      (getEcoGrade c₁ m₁).level ≤ (getEcoGrade c₂ m₂).level) := by
  constructor
  · intro c m _
    rw [getEcoGrade_eq]
    by_cases h1 : perMessage c m ≤ 0.1
    · exact ⟨[], ⟨some 0.1, gradeAplus⟩, _, rfl,
        by simp [findGrade, ECO_THRESHOLDS, ratLeBound, h1],
        by simp [ratLeBound, h1], by simp⟩
    by_cases h2 : perMessage c m ≤ 0.3
    · exact ⟨[⟨some 0.1, gradeAplus⟩], ⟨some 0.3, gradeA⟩, _, rfl,
        by simp [findGrade, ECO_THRESHOLDS, ratLeBound, h1, h2],
        by simp [ratLeBound, h2], by simp [ratLeBound, h1]⟩
    by_cases h3 : perMessage c m ≤ 0.8
    · exact ⟨[⟨some 0.1, gradeAplus⟩, ⟨some 0.3, gradeA⟩], ⟨some 0.8, gradeB⟩, _, rfl,
        by simp [findGrade, ECO_THRESHOLDS, ratLeBound, h1, h2, h3],
        by simp [ratLeBound, h3], by simp [ratLeBound, h1, h2]⟩
    by_cases h4 : perMessage c m ≤ 1.5
    · exact ⟨[⟨some 0.1, gradeAplus⟩, ⟨some 0.3, gradeA⟩, ⟨some 0.8, gradeB⟩],
        ⟨some 1.5, gradeBminus⟩, _, rfl,
        by simp [findGrade, ECO_THRESHOLDS, ratLeBound, h1, h2, h3, h4],
        by simp [ratLeBound, h4], by simp [ratLeBound, h1, h2, h3]⟩
    by_cases h5 : perMessage c m ≤ 3.0
    · exact ⟨[⟨some 0.1, gradeAplus⟩, ⟨some 0.3, gradeA⟩, ⟨some 0.8, gradeB⟩,
        ⟨some 1.5, gradeBminus⟩], ⟨some 3.0, gradeC⟩, _, rfl,
        by simp [findGrade, ECO_THRESHOLDS, ratLeBound, h1, h2, h3, h4, h5],
        by simp [ratLeBound, h5], by simp [ratLeBound, h1, h2, h3, h4]⟩
    by_cases h6 : perMessage c m ≤ 6.0
    · exact ⟨[⟨some 0.1, gradeAplus⟩, ⟨some 0.3, gradeA⟩, ⟨some 0.8, gradeB⟩,
        ⟨some 1.5, gradeBminus⟩, ⟨some 3.0, gradeC⟩], ⟨some 6.0, gradeD⟩, _, rfl,
        by simp [findGrade, ECO_THRESHOLDS, ratLeBound, h1, h2, h3, h4, h5, h6],
        by simp [ratLeBound, h6], by simp [ratLeBound, h1, h2, h3, h4, h5]⟩
    · exact ⟨[⟨some 0.1, gradeAplus⟩, ⟨some 0.3, gradeA⟩, ⟨some 0.8, gradeB⟩,
        ⟨some 1.5, gradeBminus⟩, ⟨some 3.0, gradeC⟩, ⟨some 6.0, gradeD⟩], ⟨none, gradeF⟩, _, rfl,
        by simp [findGrade, ECO_THRESHOLDS, ratLeBound, h1, h2, h3, h4, h5, h6],
        by simp [ratLeBound], by simp [ratLeBound, h1, h2, h3, h4, h5, h6]⟩
  · intro c₁ c₂ m₁ m₂ _ _ hle
    rw [getEcoGrade_eq, getEcoGrade_eq]
    exact level_mono hle

/-- Witness for C6: 0.18 g over one message grades "A" (level 2), and a
larger per-message figure cannot grade better. -/
theorem eco_grade_total_and_monotone_witness :
    ((0 : Rat) ≤ mkRat 18 100 ∧
      ∃ pre t post, ECO_THRESHOLDS = pre ++ t :: post ∧
        getEcoGrade (mkRat 18 100) 1 = t.grade ∧
        ratLeBound (perMessage (mkRat 18 100) 1) t.maxPerMsg = true ∧
        ∀ t₁ ∈ pre, ratLeBound (perMessage (mkRat 18 100) 1) t₁.maxPerMsg = false) ∧
    (getEcoGrade (mkRat 18 100) 1).level ≤ (getEcoGrade (mkRat 5 1) 1).level :=
  ⟨⟨by decide, eco_grade_total_and_monotone.1 (mkRat 18 100) 1 (by decide)⟩,
    eco_grade_total_and_monotone.2 (mkRat 18 100) (mkRat 5 1) 1 1 (by decide) (by decide)
      (by simp +decide [perMessage])⟩

/-! ### C7: dominant-tier selection -/

theorem dominantLoop_of_large :
    ∀ (ms : List String) (acc : ModelSize),
      (∃ m ∈ ms, classifyModel m = .large) → dominantLoop ms acc = .large := by
  intro ms
  induction ms with
  | nil => intro acc h; simp at h
  | cons m rest ih =>
    intro acc h
    obtain ⟨w, hw, hcw⟩ := h
    simp only [dominantLoop]
    cases hc : classifyModel m
    · rcases List.mem_cons.1 hw with rfl | hw₁
      · rw [hc] at hcw; exact absurd hcw (by simp)
      · exact ih acc ⟨w, hw₁, hcw⟩
    · rcases List.mem_cons.1 hw with rfl | hw₁
      · rw [hc] at hcw; exact absurd hcw (by simp)
      · exact ih .medium ⟨w, hw₁, hcw⟩
    · rfl

theorem dominantLoop_medium_of_no_large :
    ∀ ms : List String, (∀ m ∈ ms, classifyModel m ≠ .large) →
      dominantLoop ms .medium = .medium := by
  intro ms
  induction ms with
  | nil => intro _; rfl
  | cons m rest ih =>
    intro h
    simp only [dominantLoop]
    cases hc : classifyModel m
    · exact ih fun m₁ hm₁ => h m₁ (List.mem_cons_of_mem _ hm₁)
    · exact ih fun m₁ hm₁ => h m₁ (List.mem_cons_of_mem _ hm₁)
    · exact absurd hc (h m (List.mem_cons_self m rest))

theorem dominantLoop_of_medium :
    ∀ ms : List String, (∀ m ∈ ms, classifyModel m ≠ .large) →
      (∃ m ∈ ms, classifyModel m = .medium) → dominantLoop ms .small = .medium := by
  intro ms
  induction ms with
  | nil => intro _ h; simp at h
  | cons m rest ih =>
    intro hno h
    obtain ⟨w, hw, hcw⟩ := h
    simp only [dominantLoop]
    cases hc : classifyModel m
    · rcases List.mem_cons.1 hw with rfl | hw₁
      · rw [hc] at hcw; exact absurd hcw (by simp)
      · exact ih (fun m₁ hm₁ => hno m₁ (List.mem_cons_of_mem _ hm₁)) ⟨w, hw₁, hcw⟩
    · exact dominantLoop_medium_of_no_large rest
        fun m₁ hm₁ => hno m₁ (List.mem_cons_of_mem _ hm₁)
    · exact absurd hc (hno m (List.mem_cons_self m rest))

theorem dominantLoop_of_all_small :
    ∀ ms : List String, (∀ m ∈ ms, classifyModel m = .small) →
      dominantLoop ms .small = .small := by
  intro ms
  induction ms with
  | nil => intro _; rfl
  | cons m rest ih =>
    intro h
    simp only [dominantLoop]
    rw [h m (List.mem_cons_self m rest)]
    exact ih fun m₁ hm₁ => h m₁ (List.mem_cons_of_mem _ hm₁)

/-- C7: dominant-tier selection picks the single highest-impact tier
among the classifications of a session's model identifiers with strict
precedence large > medium > small — any large model makes the session
large regardless of the rest, a medium model without any large makes it
medium, and only an all-small set stays small — and the estimator's
energy figure uses exactly the per-token rate of that dominant tier. -/
theorem dominant_tier_selection :
    (∀ ms : List String, (∃ m ∈ ms, classifyModel m = .large) →
        dominantLoop ms .small = .large) ∧
    (∀ ms : List String, (∀ m ∈ ms, classifyModel m ≠ .large) →
        (∃ m ∈ ms, classifyModel m = .medium) → dominantLoop ms .small = .medium) ∧
    (∀ ms : List String, (∀ m ∈ ms, classifyModel m = .small) →
        dominantLoop ms .small = .small) ∧
    (∀ (env : Option String) (stats : SessionStats),
        (computeCO2 env stats).energyKwh =
          (stats.inputTokens + stats.outputTokens + stats.reasoningTokens) *
            ENERGY_PER_TOKEN_KWH (dominantLoop stats.models .small)) :=
  ⟨fun ms h => dominantLoop_of_large ms .small h,
   fun ms hno h => dominantLoop_of_medium ms hno h,
   fun ms h => dominantLoop_of_all_small ms h,
   fun _ _ => rfl⟩

/-- Witness for C7: one large model among small ones dominates. -/
theorem dominant_tier_selection_witness :
    (∃ m ∈ ["gpt-4o-mini", "claude-opus-4", "gemini-2.0-flash"],
        classifyModel m = .large) ∧
    dominantLoop ["gpt-4o-mini", "claude-opus-4", "gemini-2.0-flash"] .small = .large :=
  ⟨by decide,
    dominant_tier_selection.1 ["gpt-4o-mini", "claude-opus-4", "gemini-2.0-flash"] (by decide)⟩

/-! ### C8: the classifier is total with ordered marker fallback -/

/-- The "small" substring markers of the classifier fallback. -/
def smallMarker (id : String) : Bool :=
  strIncludes id "haiku" || strIncludes id "mini" ||
    strIncludes id "nano" || strIncludes id "flash"

/-- The "large" substring markers of the classifier fallback (`o3`
counts only without `mini`). -/
def largeMarker (id : String) : Bool :=
  strIncludes id "opus" || (strIncludes id "o3" && !strIncludes id "mini")

/-- C8: the model classifier is a total function on strings — every
identifier maps to exactly one of small/medium/large — computed by
(1) exact table lookup, (2) on a miss, lower-cased substring markers
with the small markers (haiku/mini/nano/flash) checked before the large
markers (opus, and o3 only when mini is absent), and (3) the default
"medium" for every identifier matching neither the table nor any
marker. -/
theorem classifier_total_with_ordered_fallback :
    (∀ id : String, classifyModel id = .small ∨ classifyModel id = .medium ∨
        classifyModel id = .large) ∧
    (∀ (id : String) (s : ModelSize), assocFind id MODEL_SIZE = some s →
        classifyModel id = s) ∧
    (∀ id : String, assocFind id MODEL_SIZE = none → smallMarker (strToLower id) = true →
        classifyModel id = .small) ∧
    (∀ id : String, assocFind id MODEL_SIZE = none → smallMarker (strToLower id) = false →
        largeMarker (strToLower id) = true → classifyModel id = .large) ∧
    (∀ id : String, assocFind id MODEL_SIZE = none → smallMarker (strToLower id) = false →
        largeMarker (strToLower id) = false → classifyModel id = .medium) := by
  refine ⟨?_, ?_, ?_, ?_, ?_⟩
  · intro id
    cases h : assocFind id MODEL_SIZE with
    | some s => simp only [classifyModel, h]; cases s <;> tauto
    | none => simp only [classifyModel, h]; split_ifs <;> tauto
  · intro id s h
    simp [classifyModel, h]
  · intro id hnone hsm
    unfold smallMarker at hsm
    simp [classifyModel, hnone, hsm]
  · intro id hnone hsm hlg
    unfold smallMarker at hsm
    unfold largeMarker at hlg
    simp only [Bool.or_eq_false_iff] at hsm
    obtain ⟨⟨⟨hh, hm⟩, hn⟩, hf⟩ := hsm
    simp only [hm, Bool.not_false, Bool.and_true] at hlg
    simp [classifyModel, hnone, hh, hm, hn, hf, hlg]
  · intro id hnone hsm hlg
    unfold smallMarker at hsm
    unfold largeMarker at hlg
    simp only [Bool.or_eq_false_iff] at hsm hlg
    obtain ⟨⟨⟨hh, hm⟩, hn⟩, hf⟩ := hsm
    simp only [hm, Bool.not_false, Bool.and_true] at hlg
    simp [classifyModel, hnone, hh, hm, hn, hf, hlg.1, hlg.2]

/-- Witness for C8: an unknown id with a small marker beats the o3
marker, and a fully unknown id falls through to medium. -/
theorem classifier_total_with_ordered_fallback_witness :
    (assocFind "my-o3-mini-high" MODEL_SIZE = none ∧
      smallMarker (strToLower "my-o3-mini-high") = true ∧
      classifyModel "my-o3-mini-high" = .small) ∧
    (assocFind "zzz-unknown" MODEL_SIZE = none ∧
      smallMarker (strToLower "zzz-unknown") = false ∧
      largeMarker (strToLower "zzz-unknown") = false ∧
      classifyModel "zzz-unknown" = .medium) :=
  ⟨⟨by decide, by decide,
    classifier_total_with_ordered_fallback.2.2.1 "my-o3-mini-high" (by decide) (by decide)⟩,
   ⟨by decide, by decide, by decide,
    classifier_total_with_ordered_fallback.2.2.2.2 "zzz-unknown" (by decide) (by decide)
      (by decide)⟩⟩
